import Mathlib

/-!
Shallow embedding of `udevdb.c` (udev database library): a multi-index device
record store over the tdb key-value engine.  The tdb engine itself and the
constants of the missing headers (`udev.h`, `udevdb.h`) are modelled from the
spec; everything else follows the source function by function, in a
state-passing style (`Tdb → result × Tdb`).
-/

namespace Udevdb

/-- Modelled from the spec: `NAME_SIZE` from the missing header `udev.h`, the
fixed ceiling for device, class-device and driver name fields.  The spec fixes
only that each string field has its own fixed maximum length; the concrete
value is a representative choice. -/
def NAME_SIZE : Nat := 16

/-- Modelled from the spec: `PATH_SIZE` from the missing header `udev.h`, the
ceiling for sysfs/topology path fields. -/
def PATH_SIZE : Nat := 64

/-- Modelled from the spec: `BUS_SIZE` from the missing header `udev.h`, the
ceiling for bus name fields. -/
def BUS_SIZE : Nat := 16

/-- Modelled from the spec: `ID_SIZE` from the missing header `udev.h`, the
ceiling for bus id fields. -/
def ID_SIZE : Nat := 16

/-- Modelled from the spec: `UDEVDB_DEL` from the missing header `udevdb.h`,
the reserved delimiter joining the two components of a composite key. -/
def UDEVDB_DEL : String := "#"

/-- `struct sysfs_device` as used by `udevdb_add_device`: only the
`directory->path` and `bus_id` fields are read. -/
structure SysfsDevice where
  directory_path : String
  bus_id : String
deriving DecidableEq

/-- `struct sysfs_driver` as used by `udevdb_add_device`: only `name` is read. -/
structure SysfsDriver where
  name : String
deriving DecidableEq

/-- `struct sysfs_class_device` as used by `udevdb_add_device`: the `sysdevice`
and `driver` pointers may be NULL, modelled with `Option`. -/
structure SysfsClassDevice where
  sysdevice : Option SysfsDevice
  name : String
  driver : Option SysfsDriver
deriving DecidableEq

/-- `struct udevice` from the missing header `udev.h`; the field set is exactly
what `udevdb.c` reads and writes. -/
structure Udevice where
  name : String
  sysfs_dev_path : String
  class_dev_name : String
  class_name : String
  bus_name : String
  bus_id : String
  driver : String
  type : Char
  major : Int
  minor : Int
  mode : Int
deriving DecidableEq

/-- `struct namedb_record`: the canonical record stored under the device name. -/
structure NamedbRecord where
  sysfs_dev_path : String
  class_dev_name : String
  class_name : String
  bus : String
  id : String
  driver : String
  type : Char
  major : Int
  minor : Int
  mode : Int
deriving DecidableEq

/-- The values stored in the flat tdb key space.  `nameVal` is the layout
shared by `struct busdb_record` and `struct classdb_record` (a single
`name[NAME_SIZE]` field, indistinguishable from each other), `pathVal` is
`struct sysfsdb_record` (`name[PATH_SIZE]`, a different size), `devVal` is
`struct namedb_record`.  A fetch that finds bytes of a different-sized record
kind is modelled as a miss. -/
inductive Val where
  | nameVal (name : String) : Val
  | pathVal (name : String) : Val
  | devVal (rec : NamedbRecord) : Val
deriving DecidableEq

/-- The tdb database: an association list (first match wins) plus two fault
oracles listing keys on which the engine's store respectively delete operation
fails.  The oracles model `tdb_store`/`tdb_delete` returning a nonzero error. -/
structure Tdb where
  map : List (String × Val)
  failStore : List String
  failDelete : List String
deriving DecidableEq

/-- Association-list lookup, first match wins. -/
def alookup (k : String) : List (String × Val) → Option Val
  | [] => none
  | (k1, v) :: rest => if k = k1 then some v else alookup k rest

/-- Remove every binding of a key from the association list. -/
def aremove (k : String) : List (String × Val) → List (String × Val)
  | [] => []
  | (k1, v) :: rest => if k = k1 then aremove k rest else (k1, v) :: aremove k rest

/-- `tdb_fetch`: read a value; the database is returned unchanged. -/
def tdb_fetch (db : Tdb) (k : String) : Option Val × Tdb :=
  (alookup k db.map, db)

/-- `tdb_store` with `TDB_REPLACE`: the new binding shadows any older binding
for the same key (first match wins in `alookup`).  A key in the `failStore`
oracle makes the engine fail with a nonzero result, leaving the map unchanged. -/
def tdb_store (db : Tdb) (k : String) (v : Val) : Int × Tdb :=
  if k ∈ db.failStore then (-1, db)
  else (0, { db with map := (k, v) :: db.map })

/-- `tdb_delete`: removes the binding for a key; fails (nonzero) on a key in
the `failDelete` oracle or on a key that is not present. -/
def tdb_delete (db : Tdb) (k : String) : Int × Tdb :=
  if k ∈ db.failDelete then (-1, db)
  else if (alookup k db.map).isSome then (0, { db with map := aremove k db.map })
  else (-1, db)

/-- `strncpy(dst, src, n)` into an `n`-byte field: the stored string is `src`
when it fits and its first `n` characters otherwise (silent truncation; the
source also loses the NUL terminator in the boundary case, which the model
elides). -/
def strncpyN (s : String) (n : Nat) : String :=
  if s.length ≤ n then s else ⟨s.data.take n⟩

/-- The composite key built identically by `busdb_store`, `busdb_fetch` and
`busdb_delete`: `strcpy(keystr, bus); strcat(keystr, UDEVDB_DEL);
strcat(keystr, id)`. -/
def buskey (bus id : String) : String := bus ++ UDEVDB_DEL ++ id

/-- The composite key built identically by `classdb_store`, `classdb_fetch`
and `classdb_delete`. -/
def classkey (cls cls_dev : String) : String := cls ++ UDEVDB_DEL ++ cls_dev

/-- `busdb_fetch`: bounds-checks both components, then fetches under the
composite key. -/
def busdb_fetch (db : Tdb) (bus id : String) : Option String × Tdb :=
  if BUS_SIZE ≤ bus.length ∨ ID_SIZE ≤ id.length then (none, db)
  else
    match tdb_fetch db (buskey bus id) with
    | (some (Val.nameVal n), db1) => (some n, db1)
    | (_, db1) => (none, db1)

/-- `classdb_fetch`. -/
def classdb_fetch (db : Tdb) (cls cls_dev : String) : Option String × Tdb :=
  if NAME_SIZE ≤ cls.length ∨ NAME_SIZE ≤ cls_dev.length then (none, db)
  else
    match tdb_fetch db (classkey cls cls_dev) with
    | (some (Val.nameVal n), db1) => (some n, db1)
    | (_, db1) => (none, db1)

/-- `sysfsdb_fetch`: the key is the path itself. -/
def sysfsdb_fetch (db : Tdb) (path : String) : Option String × Tdb :=
  if PATH_SIZE ≤ path.length then (none, db)
  else
    match tdb_fetch db path with
    | (some (Val.pathVal n), db1) => (some n, db1)
    | (_, db1) => (none, db1)

/-- `namedb_fetch`: the key is the device name. -/
def namedb_fetch (db : Tdb) (name : String) : Option NamedbRecord × Tdb :=
  if NAME_SIZE ≤ name.length then (none, db)
  else
    match tdb_fetch db name with
    | (some (Val.devVal r), db1) => (some r, db1)
    | (_, db1) => (none, db1)

/-- `busdb_store`: no bounds checks (the source `strcpy`s into a fixed buffer
unchecked); stores the device name under the composite bus key. -/
def busdb_store (db : Tdb) (dev : Udevice) : Int × Tdb :=
  tdb_store db (buskey dev.bus_name dev.bus_id) (Val.nameVal dev.name)

/-- `classdb_store`. -/
def classdb_store (db : Tdb) (dev : Udevice) : Int × Tdb :=
  tdb_store db (classkey dev.class_name dev.class_dev_name) (Val.nameVal dev.name)

/-- `sysfs_store`: stores the device name under the path key. -/
def sysfs_store (db : Tdb) (path : String) (dev : Udevice) : Int × Tdb :=
  tdb_store db path (Val.pathVal dev.name)

/-- The `namedb_record` copied field by field from a `udevice` by
`namedb_store`. -/
def namedbRecOf (dev : Udevice) : NamedbRecord :=
  { sysfs_dev_path := dev.sysfs_dev_path
    class_dev_name := dev.class_dev_name
    class_name := dev.class_name
    bus := dev.bus_name
    id := dev.bus_id
    driver := dev.driver
    type := dev.type
    major := dev.major
    minor := dev.minor
    mode := dev.mode }

/-- `namedb_store`: stores the canonical record under the device name. -/
def namedb_store (db : Tdb) (dev : Udevice) : Int × Tdb :=
  tdb_store db dev.name (Val.devVal (namedbRecOf dev))

/-- `busdb_delete`. -/
def busdb_delete (db : Tdb) (bus id : String) : Int × Tdb :=
  if BUS_SIZE ≤ bus.length ∨ ID_SIZE ≤ id.length then (-1, db)
  else tdb_delete db (buskey bus id)

/-- `classdb_delete`. -/
def classdb_delete (db : Tdb) (cls cls_dev : String) : Int × Tdb :=
  if NAME_SIZE ≤ cls.length ∨ NAME_SIZE ≤ cls_dev.length then (-1, db)
  else tdb_delete db (classkey cls cls_dev)

/-- `namedb_delete`. -/
def namedb_delete (db : Tdb) (name : String) : Int × Tdb :=
  if NAME_SIZE ≤ name.length then (-1, db)
  else tdb_delete db name

/-- `udevdb_delete_udevice`: fetches the canonical record, then deletes the
bus and class index entries derived from it and the primary record.  The
results of all three deletions are ignored by the source (`busdb_delete`,
`classdb_delete` and `namedb_delete` are called for effect only) and the sysfs
path entry is never deleted; the call returns 0 whenever the initial fetch
succeeded. -/
def udevdb_delete_udevice (db : Tdb) (name : String) : Int × Tdb :=
  match namedb_fetch db name with
  | (none, db1) => (-1, db1)
  | (some nrec, db1) =>
    let p1 := busdb_delete db1 nrec.bus nrec.id
    let p2 := classdb_delete p1.2 nrec.class_name nrec.class_dev_name
    let p3 := namedb_delete p2.2 name
    (0, p3.2)

/-- The `struct udevice dbdev` derived by `udevdb_add_device` from its
arguments.  The `memset` zero-fill shows up as the empty strings for fields
never assigned (`class_name` always — its derivation from the subsystem is
commented out in the source — and `sysfs_dev_path`/`bus_id` when `sysdevice`
is NULL); `bus_name` is unconditionally the literal `"unknown"`. -/
def deriveDbdev (class_dev : SysfsClassDevice) (name : String) (type : Char)
    (major minor mode : Int) : Udevice :=
  { name := strncpyN name NAME_SIZE
    sysfs_dev_path :=
      match class_dev.sysdevice with
      | some sd => strncpyN sd.directory_path PATH_SIZE
      | none => ""
    class_dev_name := strncpyN class_dev.name NAME_SIZE
    class_name := ""
    bus_name := "unknown"
    bus_id :=
      match class_dev.sysdevice with
      | some sd => strncpyN sd.bus_id ID_SIZE
      | none => ""
    driver :=
      match class_dev.driver with
      | some drv => strncpyN drv.name NAME_SIZE
      | none => "unknown"
    type := type
    major := major
    minor := minor
    mode := mode }

/-- `udevdb_add_device`: derives the record, then performs the four stores in
order (bus, class, sysfs path, name), returning -1 as soon as one fails, with
no rollback of the stores already performed.  The NULL guard on `class_dev` is
not representable (Lean values are never NULL); this models every call with a
non-NULL class device. -/
def udevdb_add_device (db : Tdb) (device : String) (class_dev : SysfsClassDevice)
    (name : String) (type : Char) (major minor mode : Int) : Int × Tdb :=
  let dbdev := deriveDbdev class_dev name type major minor mode
  let p1 := busdb_store db dbdev
  if p1.1 ≠ 0 then (-1, p1.2)
  else
    let p2 := classdb_store p1.2 dbdev
    if p2.1 ≠ 0 then (-1, p2.2)
    else
      let p3 := sysfs_store p2.2 device dbdev
      if p3.1 ≠ 0 then (-1, p3.2)
      else
        let p4 := namedb_store p3.2 dbdev
        if p4.1 ≠ 0 then (-1, p4.2) else (0, p4.2)

/-- `udevdb_get_udevice`: primary lookup by name.  The returned
`struct udevice` is `malloc`ed and the source copies every field of the
fetched record into it except `driver`, which is left unwritten; the model
marks the unwritten field with the empty string. -/
def udevdb_get_udevice (db : Tdb) (name : String) : Option Udevice × Tdb :=
  match namedb_fetch db name with
  | (none, db1) => (none, db1)
  | (some nrec, db1) =>
    (some { name := name
            sysfs_dev_path := nrec.sysfs_dev_path
            class_dev_name := nrec.class_dev_name
            class_name := nrec.class_name
            bus_name := nrec.bus
            bus_id := nrec.id
            driver := ""
            type := nrec.type
            major := nrec.major
            minor := nrec.minor
            mode := nrec.mode }, db1)

/-- `udevdb_get_udevice_by_bus`: resolves the bus index entry to a name, then
chains into the primary lookup. -/
def udevdb_get_udevice_by_bus (db : Tdb) (bus id : String) : Option Udevice × Tdb :=
  match busdb_fetch db bus id with
  | (none, db1) => (none, db1)
  | (some n, db1) => udevdb_get_udevice db1 n

/-- `udevdb_get_udevice_by_class`. -/
def udevdb_get_udevice_by_class (db : Tdb) (cls cls_dev : String) :
    Option Udevice × Tdb :=
  match classdb_fetch db cls cls_dev with
  | (none, db1) => (none, db1)
  | (some n, db1) => udevdb_get_udevice db1 n

/-- `udevdb_get_udevice_by_sysfs`: returns only the device name recorded under
the path key, without chaining into the primary lookup. -/
def udevdb_get_udevice_by_sysfs (db : Tdb) (path : String) : Option String × Tdb :=
  sysfsdb_fetch db path

/-- All string components of an `udevdb_add_device` call strictly below their
ceilings: no `strncpy` truncates, and every derived key component passes the
bounds checks of the fetch functions. -/
def validInput (device : String) (class_dev : SysfsClassDevice) (name : String) : Bool :=
  decide (name.length < NAME_SIZE) && decide (device.length < PATH_SIZE) &&
  decide (class_dev.name.length < NAME_SIZE) &&
  class_dev.sysdevice.all (fun sd =>
    decide (sd.directory_path.length < PATH_SIZE) &&
    decide (sd.bus_id.length < ID_SIZE)) &&
  class_dev.driver.all (fun drv => decide (drv.name.length < NAME_SIZE))

/-- An empty open store with a fault-free engine. -/
def exDb : Tdb := ⟨[], [], []⟩

/-- The class device of the concrete scenario from the spec: disk `sda` on bus
position `0:0:0:0` at sysfs path `/block/sda`, driver `sd`. -/
def exCdev : SysfsClassDevice :=
  ⟨some ⟨"/block/sda", "0:0:0:0"⟩, "sda", some ⟨"sd"⟩⟩

/-- Adding the scenario device to the empty store. -/
def exAdd : Int × Tdb := udevdb_add_device exDb "/block/sda" exCdev "sda" 'b' 8 0 432

/-- Deleting the scenario device again. -/
def exDel : Int × Tdb := udevdb_delete_udevice exAdd.2 "sda"

/-- A name whose length is exactly the `NAME_SIZE` ceiling. -/
def longName : String := ⟨List.replicate NAME_SIZE 'a'⟩

/-- A class device with small valid fields, used together with the at-ceiling
name. -/
def exCdev3 : SysfsClassDevice := ⟨some ⟨"/block/x", "7"⟩, "x", none⟩

/-- The add call with the at-ceiling name. -/
def exAdd3 : Int × Tdb := udevdb_add_device exDb "/block/x" exCdev3 longName 'b' 1 2 3

/-- A store whose engine fails the class-index write of the scenario device. -/
def exDb4 : Tdb := ⟨[], [classkey "" "sda"], []⟩

/-- The add call against the engine that fails the second of the four writes. -/
def exAdd4 : Int × Tdb := udevdb_add_device exDb4 "/block/sda" exCdev "sda" 'b' 8 0 432

/-- A store holding a bus index entry, a class index entry and a path index
entry that all reference device name `ghost`, for which no primary record
exists (index/primary drift). -/
def dangDb : Tdb :=
  ⟨[(buskey "unknown" "1", Val.nameVal "ghost"),
    (classkey "" "cd0", Val.nameVal "ghost"),
    ("/devices/p0", Val.pathVal "ghost")], [], []⟩

/-- The canonical record of the scenario device as the code stores it. -/
def exRec : NamedbRecord :=
  ⟨"/block/sda", "sda", "", "unknown", "0:0:0:0", "sd", 'b', 8, 0, 432⟩

/-- A store holding the scenario's primary record and bus index entry, whose
engine fails the deletion of the bus index key. -/
def exDb8 : Tdb :=
  ⟨[("sda", Val.devVal exRec), (buskey "unknown" "0:0:0:0", Val.nameVal "sda")],
   [], [buskey "unknown" "0:0:0:0"]⟩

/-! Helper lemmas about the association list, the key builders, the derived
record and a successful `udevdb_add_device`. -/

lemma alookup_cons_self (k : String) (v : Val) (l : List (String × Val)) :
    alookup k ((k, v) :: l) = some v := by simp [alookup]

lemma alookup_cons_ne {k k1 : String} (h : k ≠ k1) (v : Val) (l : List (String × Val)) :
    alookup k ((k1, v) :: l) = alookup k l := by simp [alookup, h]

@[simp] lemma deriveDbdev_bus_name (cd : SysfsClassDevice) (name : String) (ty : Char)
    (ma mi mo : Int) : (deriveDbdev cd name ty ma mi mo).bus_name = "unknown" := rfl

@[simp] lemma deriveDbdev_class_name (cd : SysfsClassDevice) (name : String) (ty : Char)
    (ma mi mo : Int) : (deriveDbdev cd name ty ma mi mo).class_name = "" := rfl

lemma add_success (db : Tdb) (device : String) (cd : SysfsClassDevice) (name : String)
    (ty : Char) (ma mi mo : Int)
    (h1 : buskey "unknown" (deriveDbdev cd name ty ma mi mo).bus_id ∉ db.failStore)
    (h2 : classkey "" (deriveDbdev cd name ty ma mi mo).class_dev_name ∉ db.failStore)
    (h3 : device ∉ db.failStore)
    (h4 : (deriveDbdev cd name ty ma mi mo).name ∉ db.failStore) :
    udevdb_add_device db device cd name ty ma mi mo =
      (0, { db with map :=
        ((deriveDbdev cd name ty ma mi mo).name,
          Val.devVal (namedbRecOf (deriveDbdev cd name ty ma mi mo))) ::
        (device, Val.pathVal (deriveDbdev cd name ty ma mi mo).name) ::
        (classkey "" (deriveDbdev cd name ty ma mi mo).class_dev_name,
          Val.nameVal (deriveDbdev cd name ty ma mi mo).name) ::
        (buskey "unknown" (deriveDbdev cd name ty ma mi mo).bus_id,
          Val.nameVal (deriveDbdev cd name ty ma mi mo).name) :: db.map }) := by
  simp [udevdb_add_device, busdb_store, classdb_store, sysfs_store, namedb_store,
        tdb_store, h1, h2, h3, h4]

lemma namedb_fetch_snd (db : Tdb) (name : String) : (namedb_fetch db name).2 = db := by
  unfold namedb_fetch tdb_fetch
  split
  · rfl
  · split <;> simp_all

lemma busdb_fetch_snd (db : Tdb) (bus id : String) : (busdb_fetch db bus id).2 = db := by
  unfold busdb_fetch tdb_fetch
  split
  · rfl
  · split <;> simp_all

lemma classdb_fetch_snd (db : Tdb) (cls cd : String) : (classdb_fetch db cls cd).2 = db := by
  unfold classdb_fetch tdb_fetch
  split
  · rfl
  · split <;> simp_all

lemma sysfsdb_fetch_snd (db : Tdb) (p : String) : (sysfsdb_fetch db p).2 = db := by
  unfold sysfsdb_fetch tdb_fetch
  split
  · rfl
  · split <;> simp_all

lemma get_udevice_snd (db : Tdb) (name : String) : (udevdb_get_udevice db name).2 = db := by
  unfold udevdb_get_udevice
  have h := namedb_fetch_snd db name
  rcases he : namedb_fetch db name with ⟨o, db1⟩
  rw [he] at h
  cases o <;> simpa using h

lemma get_udevice_eq (db : Tdb) (name : String) (r : NamedbRecord)
    (hlen : name.length < NAME_SIZE) (h : alookup name db.map = some (Val.devVal r)) :
    udevdb_get_udevice db name =
      (some { name := name
              sysfs_dev_path := r.sysfs_dev_path
              class_dev_name := r.class_dev_name
              class_name := r.class_name
              bus_name := r.bus
              bus_id := r.id
              driver := ""
              type := r.type
              major := r.major
              minor := r.minor
              mode := r.mode }, db) := by
  have hn : ¬ NAME_SIZE ≤ name.length := by omega
  simp [udevdb_get_udevice, namedb_fetch, tdb_fetch, h, hn]

lemma get_by_bus_snd (db : Tdb) (bus id : String) :
    (udevdb_get_udevice_by_bus db bus id).2 = db := by
  have h := busdb_fetch_snd db bus id
  rcases he : busdb_fetch db bus id with ⟨o, db1⟩
  rw [he] at h
  unfold udevdb_get_udevice_by_bus
  rw [he]
  cases o with
  | none => simpa using h
  | some n => rw [get_udevice_snd]; simpa using h

lemma get_by_class_snd (db : Tdb) (cls cls_dev : String) :
    (udevdb_get_udevice_by_class db cls cls_dev).2 = db := by
  have h := classdb_fetch_snd db cls cls_dev
  rcases he : classdb_fetch db cls cls_dev with ⟨o, db1⟩
  rw [he] at h
  unfold udevdb_get_udevice_by_class
  rw [he]
  cases o with
  | none => simpa using h
  | some n => rw [get_udevice_snd]; simpa using h

lemma strncpyN_of_lt {s : String} {n : Nat} (h : s.length < n) : strncpyN s n = s := by
  simp [strncpyN, Nat.le_of_lt h]

lemma validInput_name_lt {device : String} {cd : SysfsClassDevice} {name : String}
    (h : validInput device cd name = true) : name.length < NAME_SIZE := by
  simp [validInput, Bool.and_eq_true, decide_eq_true_eq] at h
  exact h.1.1.1.1

lemma deriveDbdev_name_eq {cd : SysfsClassDevice} {name : String} {ty : Char}
    {ma mi mo : Int} (h : name.length < NAME_SIZE) :
    (deriveDbdev cd name ty ma mi mo).name = name := by
  simp [deriveDbdev, strncpyN_of_lt h]

lemma validInput_busid_lt {device : String} {cd : SysfsClassDevice} {name : String}
    {ty : Char} {ma mi mo : Int} (h : validInput device cd name = true) :
    (deriveDbdev cd name ty ma mi mo).bus_id.length < ID_SIZE := by
  rcases hsd : cd.sysdevice with _ | sd
  · simp [deriveDbdev, hsd, ID_SIZE, String.length]
  · simp [validInput, Bool.and_eq_true, decide_eq_true_eq, hsd, Option.all] at h
    have hb := h.1.2.2
    simp [deriveDbdev, hsd, strncpyN_of_lt hb]
    exact hb

lemma validInput_clsdev_lt {device : String} {cd : SysfsClassDevice} {name : String}
    {ty : Char} {ma mi mo : Int} (h : validInput device cd name = true) :
    (deriveDbdev cd name ty ma mi mo).class_dev_name.length < NAME_SIZE := by
  simp [validInput, Bool.and_eq_true, decide_eq_true_eq] at h
  have hc := h.1.1.2
  simp [deriveDbdev, strncpyN_of_lt hc]
  exact hc

lemma data_buskey (a b : String) : (buskey a b).data = a.data ++ '#' :: b.data := by
  simp [buskey, UDEVDB_DEL, String.data_append]

lemma data_classkey (a b : String) : (classkey a b).data = a.data ++ '#' :: b.data := by
  simp [classkey, UDEVDB_DEL, String.data_append]

lemma buskey_unknown_ne_classkey_empty (id cls_dev : String) :
    buskey "unknown" id ≠ classkey "" cls_dev := by
  intro h
  have hd := congrArg String.data h
  rw [data_buskey, data_classkey] at hd
  have hu : ("unknown" : String).data = 'u' :: "nknown".data := by decide
  have he : ("" : String).data = ([] : List Char) := by decide
  rw [hu, he] at hd
  simp at hd

lemma append_delim_inj {xs xs2 ys ys2 : List Char}
    (ha : '#' ∉ xs) (hc : '#' ∉ xs2)
    (h : xs ++ '#' :: ys = xs2 ++ '#' :: ys2) : xs = xs2 ∧ ys = ys2 := by
  induction xs generalizing xs2 with
  | nil =>
    cases xs2 with
    | nil => simpa using h
    | cons b bs =>
      exfalso
      simp only [List.nil_append, List.cons_append, List.cons.injEq] at h
      exact hc (h.1 ▸ List.mem_cons_self b bs)
  | cons a as ih =>
    cases xs2 with
    | nil =>
      exfalso
      simp only [List.nil_append, List.cons_append, List.cons.injEq] at h
      exact ha (h.1 ▸ List.mem_cons_self a as)
    | cons b bs =>
      simp only [List.cons_append, List.cons.injEq] at h
      obtain ⟨hab, hrest⟩ := h
      have hr := ih (fun hm => ha (List.mem_cons_of_mem a hm))
        (fun hm => hc (List.mem_cons_of_mem b hm)) hrest
      exact ⟨by rw [hab, hr.1], hr.2⟩

/-! Claim theorems. -/

/-- Claim C1, amended.  After `add_device` of a descriptor with all string
components strictly below their ceilings, on a store whose engine does not
fail and where the name is not yet present, `get_device_by_name` returns
exactly the code-normalized record: path, class-device name, bus id, type,
major, minor and mode are preserved, the bus name is always the literal
"unknown", the class name is always the empty string (not an "unknown"
marker), and the driver field is not recovered by the lookup (the source
leaves it unwritten in the returned struct). -/
theorem C1_add_then_get_by_name (db : Tdb) (device : String) (cd : SysfsClassDevice)
    (name : String) (ty : Char) (ma mi mo : Int)
    (hvalid : validInput device cd name = true)
    (hnofail : db.failStore = [])
    (_hfresh : (namedb_fetch db name).1 = none) :
    (udevdb_add_device db device cd name ty ma mi mo).1 = 0 ∧
    (udevdb_get_udevice (udevdb_add_device db device cd name ty ma mi mo).2 name).1 =
      some { deriveDbdev cd name ty ma mi mo with driver := "" } := by
  have hn := validInput_name_lt hvalid
  have h1 : buskey "unknown" (deriveDbdev cd name ty ma mi mo).bus_id ∉ db.failStore := by
    simp [hnofail]
  have h2 : classkey "" (deriveDbdev cd name ty ma mi mo).class_dev_name ∉ db.failStore := by
    simp [hnofail]
  have h3 : device ∉ db.failStore := by simp [hnofail]
  have h4 : (deriveDbdev cd name ty ma mi mo).name ∉ db.failStore := by simp [hnofail]
  have hadd := add_success db device cd name ty ma mi mo h1 h2 h3 h4
  have hdn := @deriveDbdev_name_eq cd name ty ma mi mo hn
  have hnle : ¬ NAME_SIZE ≤ name.length := Nat.not_le.mpr hn
  rw [hadd, hdn]
  refine ⟨rfl, ?_⟩
  simp [udevdb_get_udevice, namedb_fetch, tdb_fetch, alookup, hnle, namedbRecOf, hdn]

/-- Claim C1, witness: the amended roundtrip instantiated at the concrete
scenario device. -/
theorem C1_roundtrip_witness :
    (udevdb_add_device exDb "/block/sda" exCdev "sda" 'b' 8 0 432).1 = 0 ∧
    (udevdb_get_udevice (udevdb_add_device exDb "/block/sda" exCdev "sda" 'b' 8 0 432).2
        "sda").1 =
      some { deriveDbdev exCdev "sda" 'b' 8 0 432 with driver := "" } :=
  C1_add_then_get_by_name exDb "/block/sda" exCdev "sda" 'b' 8 0 432
    (by decide) (by decide) (by decide)

/-- Claim C1, counterexample to the claim as stated: for the concrete scenario
device (class `block` implicit in the descriptor, driver `sd` present), the
record returned by `get_device_by_name` carries a class name that is the empty
string — neither a preserved class nor the "unknown" marker — and a driver
field that does not preserve the descriptor's driver. -/
theorem C1_class_and_driver_not_preserved :
    exAdd.1 = 0 ∧
    (udevdb_get_udevice exAdd.2 "sda").1 =
      some ⟨"sda", "/block/sda", "sda", "", "unknown", "0:0:0:0", "", 'b', 8, 0, 432⟩ ∧
    (udevdb_get_udevice exAdd.2 "sda").1.map Udevice.class_name ≠ some "unknown" ∧
    (udevdb_get_udevice exAdd.2 "sda").1.map Udevice.class_name ≠ some "block" ∧
    (udevdb_get_udevice exAdd.2 "sda").1.map Udevice.driver ≠ some "sd" := by
  decide

/-- Claim C2, code bug: after adding the scenario device and deleting it
again, the name, bus and class lookups do return NotFound, but the path
lookup still returns the deleted device's name — `udevdb_delete_udevice`
never deletes the sysfs path index entry, leaving a dangling entry. -/
theorem C2_delete_leaves_path_entry :
    exAdd.1 = 0 ∧ exDel.1 = 0 ∧
    (udevdb_get_udevice exDel.2 "sda").1 = none ∧
    (udevdb_get_udevice_by_bus exDel.2 "unknown" "0:0:0:0").1 = none ∧
    (udevdb_get_udevice_by_class exDel.2 "" "sda").1 = none ∧
    (udevdb_get_udevice_by_sysfs exDel.2 "/block/sda").1 = some "sda" := by
  decide

/-- Claim C3, code bug: adding a device whose name has length exactly
`NAME_SIZE` (at the ceiling) does not return a validation error — the call
succeeds, the store is changed (the canonical record is written, with every
oversized field silently truncated by `strncpy`), and the subsequent
`get_device_by_name` returns NotFound only because the fetch path rejects
the over-long key, not because the store was left unchanged. -/
theorem C3_no_validation :
    exAdd3.1 = 0 ∧
    exAdd3.2.map ≠ exDb.map ∧
    (tdb_fetch exAdd3.2 longName).1 =
      some (Val.devVal ⟨"/block/x", "x", "", "unknown", "7", "unknown", 'b', 1, 2, 3⟩) ∧
    (udevdb_get_udevice exAdd3.2 longName).1 = none := by
  decide

/-- Claim C4, code bug: when the engine fails the second of the four writes
(the class index entry), `udevdb_add_device` returns the error immediately
without deleting the already-written bus index entry — the caller observes a
state with some but not all of the four entries. -/
theorem C4_no_rollback :
    exAdd4.1 = -1 ∧
    (tdb_fetch exAdd4.2 (buskey "unknown" "0:0:0:0")).1 = some (Val.nameVal "sda") ∧
    (tdb_fetch exAdd4.2 (classkey "" "sda")).1 = none ∧
    (tdb_fetch exAdd4.2 "/block/sda").1 = none ∧
    (tdb_fetch exAdd4.2 "sda").1 = none := by
  decide

/-- Claim C5, amended.  After `add_device` of a valid descriptor on a
fault-free engine, the secondary lookups keyed the way the code keys them —
`get_device_by_bus` under the literal bus "unknown" with the stored bus id,
and `get_device_by_class` under the empty class name with the stored
class-device name — each return the same (non-NotFound) record as
`get_device_by_name`, provided the descriptor's path and name do not collide
with the two composite index keys. -/
theorem C5_secondary_lookups_agree (db : Tdb) (device : String) (cd : SysfsClassDevice)
    (name : String) (ty : Char) (ma mi mo : Int)
    (hvalid : validInput device cd name = true)
    (hnofail : db.failStore = [])
    (hne1 : buskey "unknown" (deriveDbdev cd name ty ma mi mo).bus_id ≠ name)
    (hne2 : buskey "unknown" (deriveDbdev cd name ty ma mi mo).bus_id ≠ device)
    (hne3 : classkey "" (deriveDbdev cd name ty ma mi mo).class_dev_name ≠ name)
    (hne4 : classkey "" (deriveDbdev cd name ty ma mi mo).class_dev_name ≠ device) :
    (udevdb_get_udevice (udevdb_add_device db device cd name ty ma mi mo).2 name).1 ≠
      none ∧
    (udevdb_get_udevice_by_bus (udevdb_add_device db device cd name ty ma mi mo).2
        "unknown" (deriveDbdev cd name ty ma mi mo).bus_id).1 =
      (udevdb_get_udevice (udevdb_add_device db device cd name ty ma mi mo).2 name).1 ∧
    (udevdb_get_udevice_by_class (udevdb_add_device db device cd name ty ma mi mo).2
        "" (deriveDbdev cd name ty ma mi mo).class_dev_name).1 =
      (udevdb_get_udevice (udevdb_add_device db device cd name ty ma mi mo).2 name).1 := by
  have hn := validInput_name_lt hvalid
  have hbid := @validInput_busid_lt device cd name ty ma mi mo hvalid
  have hcdn := @validInput_clsdev_lt device cd name ty ma mi mo hvalid
  have h1 : buskey "unknown" (deriveDbdev cd name ty ma mi mo).bus_id ∉ db.failStore := by
    simp [hnofail]
  have h2 : classkey "" (deriveDbdev cd name ty ma mi mo).class_dev_name ∉ db.failStore := by
    simp [hnofail]
  have h3 : device ∉ db.failStore := by simp [hnofail]
  have h4 : (deriveDbdev cd name ty ma mi mo).name ∉ db.failStore := by simp [hnofail]
  have hadd := add_success db device cd name ty ma mi mo h1 h2 h3 h4
  have hdn := @deriveDbdev_name_eq cd name ty ma mi mo hn
  have hnle : ¬ NAME_SIZE ≤ name.length := Nat.not_le.mpr hn
  have hknc := buskey_unknown_ne_classkey_empty
    (deriveDbdev cd name ty ma mi mo).bus_id (deriveDbdev cd name ty ma mi mo).class_dev_name
  have hbu : ¬ BUS_SIZE ≤ ("unknown" : String).length := by decide
  have hbi : ¬ ID_SIZE ≤ (deriveDbdev cd name ty ma mi mo).bus_id.length :=
    Nat.not_le.mpr hbid
  have hce : ¬ NAME_SIZE ≤ ("" : String).length := by decide
  have hce0 : ¬ NAME_SIZE = 0 := by decide
  have hcd2 : ¬ NAME_SIZE ≤ (deriveDbdev cd name ty ma mi mo).class_dev_name.length :=
    Nat.not_le.mpr hcdn
  rw [hadd, hdn]
  refine ⟨?_, ?_, ?_⟩
  · simp [udevdb_get_udevice, namedb_fetch, tdb_fetch, alookup, hnle]
  · simp [udevdb_get_udevice_by_bus, busdb_fetch, tdb_fetch, alookup, hbu, hbi,
          hne1, hne2, hknc, udevdb_get_udevice, namedb_fetch, hnle, hdn]
  · simp [udevdb_get_udevice_by_class, classdb_fetch, tdb_fetch, alookup, hce, hce0, hcd2,
          hne3, hne4, udevdb_get_udevice, namedb_fetch, hnle, hdn]

/-- Claim C5, witness: the amended statement instantiated at the concrete
scenario device. -/
theorem C5_lookups_witness :
    (udevdb_get_udevice exAdd.2 "sda").1 ≠ none ∧
    (udevdb_get_udevice_by_bus exAdd.2
        "unknown" (deriveDbdev exCdev "sda" 'b' 8 0 432).bus_id).1 =
      (udevdb_get_udevice exAdd.2 "sda").1 ∧
    (udevdb_get_udevice_by_class exAdd.2
        "" (deriveDbdev exCdev "sda" 'b' 8 0 432).class_dev_name).1 =
      (udevdb_get_udevice exAdd.2 "sda").1 :=
  C5_secondary_lookups_agree exDb "/block/sda" exCdev "sda" 'b' 8 0 432
    (by decide) (by decide) (by decide) (by decide) (by decide) (by decide)

/-- Claim C5, counterexample to the claim as stated: for the scenario device
(bus `scsi`, class `block` in the spec's concrete scenario), looking up by the
descriptor's own bus and class names returns NotFound even though the primary
record exists — the code never keys the indices under them. -/
theorem C5_descriptor_bus_class_not_used :
    (udevdb_get_udevice exAdd.2 "sda").1 ≠ none ∧
    (udevdb_get_udevice_by_bus exAdd.2 "scsi" "0:0:0:0").1 = none ∧
    (udevdb_get_udevice_by_class exAdd.2 "block" "sda").1 = none := by
  decide

/-- Claim C6, counterexample to the claim as stated: the delimiter-joined key
construction is not injective over all accepted part pairs — the distinct
pairs produce identical bus and class keys, and a fetch under the second pair
observes the entry stored under the first. -/
theorem C6_delimiter_collision :
    buskey "a#" "b" = buskey "a" "#b" ∧
    (("a#", "b") : String × String) ≠ ("a", "#b") ∧
    classkey "a#" "b" = classkey "a" "#b" ∧
    (busdb_fetch ⟨[(buskey "a#" "b", Val.nameVal "x")], [], []⟩ "a" "#b").1 = some "x" := by
  decide

/-- Claim C6, amended.  Composite key construction for the bus and class key
spaces is injective over part pairs whose first component does not contain the
delimiter character: two pairs that build the same key agree componentwise. -/
theorem C6_injective_without_delimiter (a b c d : String)
    (ha : '#' ∉ a.data) (hc : '#' ∉ c.data) :
    (buskey a b = buskey c d → a = c ∧ b = d) ∧
    (classkey a b = classkey c d → a = c ∧ b = d) := by
  constructor <;> intro h
  · have hd := congrArg String.data h
    rw [data_buskey, data_buskey] at hd
    obtain ⟨h1, h2⟩ := append_delim_inj ha hc hd
    exact ⟨String.ext h1, String.ext h2⟩
  · have hd := congrArg String.data h
    rw [data_classkey, data_classkey] at hd
    obtain ⟨h1, h2⟩ := append_delim_inj ha hc hd
    exact ⟨String.ext h1, String.ext h2⟩

/-- Claim C6, witness: the amended injectivity applied at concrete
delimiter-free parts. -/
theorem C6_injective_witness : ("usb" : String) = "usb" ∧ ("2-1" : String) = "2-1" :=
  (C6_injective_without_delimiter "usb" "2-1" "usb" "2-1" (by decide) (by decide)).1 rfl

/-- Claim C7, counterexample to the claim as stated: on a store whose bus,
class and path index entries reference a name with no primary record, the bus
and class lookups return plain NotFound — the very same outcome as on a store
where the index entries are absent — and the path lookup even returns the
dangling name as a success; no distinguishable inconsistency outcome exists. -/
theorem C7_dangling_indistinguishable :
    (tdb_fetch dangDb (buskey "unknown" "1")).1 = some (Val.nameVal "ghost") ∧
    (namedb_fetch dangDb "ghost").1 = none ∧
    (udevdb_get_udevice_by_bus dangDb "unknown" "1").1 = none ∧
    (udevdb_get_udevice_by_bus exDb "unknown" "1").1 = none ∧
    (udevdb_get_udevice_by_class dangDb "" "cd0").1 = none ∧
    (udevdb_get_udevice_by_class exDb "" "cd0").1 = none ∧
    (udevdb_get_udevice_by_sysfs dangDb "/devices/p0").1 = some "ghost" := by
  decide

/-- Claim C7, amended.  A by-bus or by-class lookup whose index entry resolves
to a name with no primary record returns NotFound, indistinguishable from the
NotFound returned when the index entry itself is absent. -/
theorem C7_dangling_is_notfound (db : Tdb) (bus id cls cls_dev n m : String)
    (hb : (busdb_fetch db bus id).1 = some n)
    (hbn : (namedb_fetch db n).1 = none)
    (hc : (classdb_fetch db cls cls_dev).1 = some m)
    (hcn : (namedb_fetch db m).1 = none) :
    (udevdb_get_udevice_by_bus db bus id).1 = none ∧
    (udevdb_get_udevice_by_class db cls cls_dev).1 = none := by
  have heb : busdb_fetch db bus id = (some n, db) :=
    Prod.ext_iff.mpr ⟨hb, busdb_fetch_snd db bus id⟩
  have hebn : namedb_fetch db n = (none, db) :=
    Prod.ext_iff.mpr ⟨hbn, namedb_fetch_snd db n⟩
  have hec : classdb_fetch db cls cls_dev = (some m, db) :=
    Prod.ext_iff.mpr ⟨hc, classdb_fetch_snd db cls cls_dev⟩
  have hecn : namedb_fetch db m = (none, db) :=
    Prod.ext_iff.mpr ⟨hcn, namedb_fetch_snd db m⟩
  constructor
  · simp [udevdb_get_udevice_by_bus, heb, udevdb_get_udevice, hebn]
  · simp [udevdb_get_udevice_by_class, hec, udevdb_get_udevice, hecn]

/-- Claim C7, witness: the amended statement instantiated at the concrete
dangling store. -/
theorem C7_dangling_witness :
    (udevdb_get_udevice_by_bus dangDb "unknown" "1").1 = none ∧
    (udevdb_get_udevice_by_class dangDb "" "cd0").1 = none :=
  C7_dangling_is_notfound dangDb "unknown" "1" "" "cd0" "ghost" "ghost"
    (by decide) (by decide) (by decide) (by decide)

/-- Claim C8, counterexample to the claim as stated: deleting the scenario
device on an engine that fails the deletion of the bus index key still
returns success, with the bus index entry left dangling after the primary
record is gone — the engine-level error is swallowed, not propagated or
reported as an inconsistency. -/
theorem C8_errors_swallowed :
    (udevdb_delete_udevice exDb8 "sda").1 = 0 ∧
    (tdb_fetch (udevdb_delete_udevice exDb8 "sda").2
      (buskey "unknown" "0:0:0:0")).1 = some (Val.nameVal "sda") ∧
    (namedb_fetch (udevdb_delete_udevice exDb8 "sda").2 "sda").1 = none := by
  decide

/-- Claim C8, amended.  Whenever the primary record for a name exists,
`udevdb_delete_udevice` returns success unconditionally: missing index entries
are tolerated, but engine-level failures of the index and primary deletions
are ignored as well, because the source discards the result of every
deletion. -/
theorem C8_delete_always_ok (db : Tdb) (name : String) (r : NamedbRecord)
    (h : (namedb_fetch db name).1 = some r) :
    (udevdb_delete_udevice db name).1 = 0 := by
  have he : namedb_fetch db name = (some r, db) :=
    Prod.ext_iff.mpr ⟨h, namedb_fetch_snd db name⟩
  simp [udevdb_delete_udevice, he]

/-- Claim C8, witness: the amended statement instantiated at the concrete
store whose engine fails the bus index deletion. -/
theorem C8_delete_always_ok_witness :
    (udevdb_delete_udevice exDb8 "sda").1 = 0 :=
  C8_delete_always_ok exDb8 "sda" exRec (by decide)

/-- Claim C9, confirmed.  Every one of the four lookups — by name, by bus, by
class, by sysfs path — returns the store unchanged, whatever the store and the
lookup arguments; lookups are read-only. -/
theorem C9_lookups_read_only (db : Tdb) (name bus id cls cls_dev path : String) :
    (udevdb_get_udevice db name).2 = db ∧
    (udevdb_get_udevice_by_bus db bus id).2 = db ∧
    (udevdb_get_udevice_by_class db cls cls_dev).2 = db ∧
    (udevdb_get_udevice_by_sysfs db path).2 = db :=
  ⟨get_udevice_snd db name, get_by_bus_snd db bus id,
    get_by_class_snd db cls cls_dev, sysfsdb_fetch_snd db path⟩

/-- Claim C10, confirmed.  For every successful `udevdb_add_device` call
(whose index keys do not collide with the path or name keys), the canonical
record stored under the device name has bus name the literal "unknown" and
class name the empty string, the bus index entry is keyed under bus "unknown"
with the stored bus id, and the class index entry is keyed under the empty
class name with the stored class-device name. -/
theorem C10_normalized_bus_class (db : Tdb) (device : String) (cd : SysfsClassDevice)
    (name : String) (ty : Char) (ma mi mo : Int)
    (hadd : (udevdb_add_device db device cd name ty ma mi mo).1 = 0)
    (hne1 : buskey "unknown" (deriveDbdev cd name ty ma mi mo).bus_id ≠
      (deriveDbdev cd name ty ma mi mo).name)
    (hne2 : buskey "unknown" (deriveDbdev cd name ty ma mi mo).bus_id ≠ device)
    (hne3 : classkey "" (deriveDbdev cd name ty ma mi mo).class_dev_name ≠
      (deriveDbdev cd name ty ma mi mo).name)
    (hne4 : classkey "" (deriveDbdev cd name ty ma mi mo).class_dev_name ≠ device) :
    (namedbRecOf (deriveDbdev cd name ty ma mi mo)).bus = "unknown" ∧
    (namedbRecOf (deriveDbdev cd name ty ma mi mo)).class_name = "" ∧
    (tdb_fetch (udevdb_add_device db device cd name ty ma mi mo).2
        (deriveDbdev cd name ty ma mi mo).name).1 =
      some (Val.devVal (namedbRecOf (deriveDbdev cd name ty ma mi mo))) ∧
    (tdb_fetch (udevdb_add_device db device cd name ty ma mi mo).2
        (buskey "unknown" (deriveDbdev cd name ty ma mi mo).bus_id)).1 =
      some (Val.nameVal (deriveDbdev cd name ty ma mi mo).name) ∧
    (tdb_fetch (udevdb_add_device db device cd name ty ma mi mo).2
        (classkey "" (deriveDbdev cd name ty ma mi mo).class_dev_name)).1 =
      some (Val.nameVal (deriveDbdev cd name ty ma mi mo).name) := by
  have hknc := buskey_unknown_ne_classkey_empty
    (deriveDbdev cd name ty ma mi mo).bus_id (deriveDbdev cd name ty ma mi mo).class_dev_name
  by_cases h1 : buskey "unknown" (deriveDbdev cd name ty ma mi mo).bus_id ∈ db.failStore
  · exfalso
    simp [udevdb_add_device, busdb_store, tdb_store, h1] at hadd
  by_cases h2 : classkey "" (deriveDbdev cd name ty ma mi mo).class_dev_name ∈ db.failStore
  · exfalso
    simp [udevdb_add_device, busdb_store, classdb_store, tdb_store, h1, h2] at hadd
  by_cases h3 : device ∈ db.failStore
  · exfalso
    simp [udevdb_add_device, busdb_store, classdb_store, sysfs_store, tdb_store,
      h1, h2, h3] at hadd
  by_cases h4 : (deriveDbdev cd name ty ma mi mo).name ∈ db.failStore
  · exfalso
    simp [udevdb_add_device, busdb_store, classdb_store, sysfs_store, namedb_store,
      tdb_store, h1, h2, h3, h4] at hadd
  rw [add_success db device cd name ty ma mi mo h1 h2 h3 h4]
  refine ⟨rfl, rfl, ?_, ?_, ?_⟩
  · simp [tdb_fetch, alookup]
  · simp [tdb_fetch, alookup, hne1, hne2, hknc]
  · simp [tdb_fetch, alookup, hne3, hne4]

/-- Claim C10, witness: the normalized keying instantiated at the concrete
scenario device. -/
theorem C10_normalized_witness :
    (namedbRecOf (deriveDbdev exCdev "sda" 'b' 8 0 432)).bus = "unknown" ∧
    (namedbRecOf (deriveDbdev exCdev "sda" 'b' 8 0 432)).class_name = "" ∧
    (tdb_fetch exAdd.2 (deriveDbdev exCdev "sda" 'b' 8 0 432).name).1 =
      some (Val.devVal (namedbRecOf (deriveDbdev exCdev "sda" 'b' 8 0 432))) ∧
    (tdb_fetch exAdd.2
        (buskey "unknown" (deriveDbdev exCdev "sda" 'b' 8 0 432).bus_id)).1 =
      some (Val.nameVal (deriveDbdev exCdev "sda" 'b' 8 0 432).name) ∧
    (tdb_fetch exAdd.2
        (classkey "" (deriveDbdev exCdev "sda" 'b' 8 0 432).class_dev_name)).1 =
      some (Val.nameVal (deriveDbdev exCdev "sda" 'b' 8 0 432).name) :=
  C10_normalized_bus_class exDb "/block/sda" exCdev "sda" 'b' 8 0 432
    (by decide) (by decide) (by decide) (by decide) (by decide)

end Udevdb
